import Mathlib

/-!
Shallow embedding of the epoch-converter CLI (src/main.rs) and proofs of the
spec's testable properties.

The program has three logic units, all embedded below:
- the unit-disambiguation heuristic in `main` (lines 88-113), embedded as
  `disambiguate`;
- the datetime parser `parse_datetime` (lines 46-64), embedded as
  `parse_datetime` over `List Char`, with the chrono format parsers it calls
  modelled explicitly;
- the printer `display_results` (lines 66-72), embedded as `display_results`
  returning the numeric content of its first two lines.

Machine integers: `i64` values are modelled as `Int` (the spec leaves the
overflow behaviour of the disambiguator's multiplications unspecified, and in
debug builds Rust panics rather than wraps, so the model uses exact integer
arithmetic); the `as u32` cast on the nanosecond field is modelled explicitly
as reduction modulo 2^32 (`u32cast`). Rust's truncating `/` and `%` on `i64`
are `Int.tdiv` and `Int.tmod`.
-/

/-- Point in time as stored by the program: epoch seconds (an `i64`, modelled
as `Int`) and a sub-second nanosecond field (a `u32`, modelled as `Nat`). -/
structure Instant where
  secs : Int
  nanos : Nat
deriving Repr, DecidableEq

/-- Wrapping conversion of an `i64` value to `u32`, as Rust's `as u32` cast:
the value reduced modulo 2^32, taken as a natural number. -/
def u32cast (x : Int) : Nat := (x % (2 ^ 32)).toNat

/-- Unit-disambiguation heuristic of `main` (src/main.rs lines 88-113): given
the raw `input` integer and the current epoch second `ts`, pick the first
matching magnitude band (seconds, milliseconds, microseconds, nanoseconds)
and normalize to an `Instant`; the second component is the notice line the
selected branch prints (`none` for the unreachable fall-through, which leaves
the initial values `seconds = 0, nano_seconds = 0`). -/
def disambiguate (input ts : Int) : Instant × Option String :=
  let threshold : Int := 10
  let milli_multiplier : Int := 10 ^ 3
  let micro_multiplier : Int := 10 ^ 6
  let nano_multiplier : Int := 10 ^ 9
  if input ≤ ts * threshold then
    (⟨input, 0⟩, some "Assuming that timestamp is in seconds.")
  else if input > ts * threshold ∧ input ≤ ts * milli_multiplier * threshold then
    (⟨input.tdiv milli_multiplier, u32cast (micro_multiplier * (input.tmod milli_multiplier))⟩,
      some "Assuming that timestamp is in milliseconds.")
  else if input > ts * milli_multiplier * threshold ∧ input ≤ ts * micro_multiplier * threshold then
    (⟨input.tdiv micro_multiplier, u32cast (milli_multiplier * (input.tmod micro_multiplier))⟩,
      some "Assuming that timestamp is in microseconds.")
  else if input > ts * micro_multiplier * threshold then
    (⟨ts.tdiv nano_multiplier, u32cast (ts.tmod nano_multiplier)⟩,
      some "Assuming that timestamp is in nanoseconds.")
  else (⟨0, 0⟩, none)

/-- Accessor `timestamp()` of the chrono `DateTime` built by
`Utc.timestamp(seconds, nano_seconds)`: the whole epoch seconds. -/
def timestamp (i : Instant) : Int := i.secs

/-- Accessor `timestamp_subsec_millis()` of the chrono `DateTime`: the
sub-second nanoseconds divided by one million. -/
def timestamp_subsec_millis (i : Instant) : Nat := i.nanos / 1000000

/-- Numeric content of the first two lines printed by `display_results`
(src/main.rs lines 66-72): line 1 is `datetime.timestamp()`, line 2 is
`datetime.timestamp() * 1000 + datetime.timestamp_subsec_millis() as i64`.
Lines 3 and 4 are RFC 2822 renderings by the excluded calendar library and
carry no further numeric content. -/
structure DisplayLines where
  epochSeconds : Int
  epochMillis : Int
deriving Repr, DecidableEq

/-- Model of `display_results` (src/main.rs lines 66-72), restricted to the
numeric values of its two epoch lines. -/
def display_results (i : Instant) : DisplayLines :=
  ⟨timestamp i, timestamp i * 1000 + (timestamp_subsec_millis i : Int)⟩

/-- ASCII whitespace, the subset of Rust's whitespace classes relevant to the
accepted inputs (space, tab, line feed, carriage return). -/
def isWs (c : Char) : Bool := c = ' ' || c = '\t' || c = '\n' || c = '\r'

/-- Model of `src.trim()`: drop leading and trailing whitespace. -/
def trimChars (cs : List Char) : List Char :=
  ((cs.dropWhile isWs).reverse.dropWhile isWs).reverse

/-- Model of `.replace("GMT", "+0000")`: replace every (non-overlapping,
left-to-right) occurrence of the substring GMT by the five characters
+0000. -/
def replaceGMT : List Char → List Char
  | 'G' :: 'M' :: 'T' :: rest => '+' :: '0' :: '0' :: '0' :: '0' :: replaceGMT rest
  | c :: rest => c :: replaceGMT rest
  | [] => []

/-- Normalization at the top of `parse_datetime` (src/main.rs line 47): trim,
then substitute GMT by +0000. -/
def normalizeInput (cs : List Char) : List Char := replaceGMT (trimChars cs)

/-- Model of `Regex::new(r".*+\d{4}$").is_match(..)` (src/main.rs lines
48-50). The stacked quantifiers make the pattern equivalent to a search for
four digits at the end of the haystack, so the unanchored match succeeds
exactly when the string ends in four consecutive digits, regardless of any
sign character before them. -/
def endsWithFourDigits (cs : List Char) : Bool :=
  match cs.reverse with
  | d0 :: d1 :: d2 :: d3 :: _ => d0.isDigit && d1.isDigit && d2.isDigit && d3.isDigit
  | _ => false

/-- Greedy scan of at most `fuel` further leading ASCII digits, accumulating
into `cnt` digits seen and `acc` their value; returns the digit count, the
value, and the unconsumed rest. -/
def scanDigits : Nat → Nat → Nat → List Char → Nat × Nat × List Char
  | 0, cnt, acc, cs => (cnt, acc, cs)
  | fuel + 1, cnt, acc, cs =>
    match cs with
    | c :: rest =>
      if c.isDigit then scanDigits fuel (cnt + 1) (acc * 10 + (c.toNat - 48)) rest
      else (cnt, acc, cs)
    | [] => (cnt, acc, cs)

/-- Numeric field scan as chrono's numeric format items perform it: between
one and `maxDigits` leading digits, greedily. -/
def parseNum (maxDigits : Nat) (cs : List Char) : Option (Nat × Nat × List Char) :=
  let r := scanDigits maxDigits 0 0 cs
  if r.1 = 0 then none else some r

/-- Consume one expected literal character. -/
def expectChar (c : Char) : List Char → Option (List Char)
  | x :: rest => if x = c then some rest else none
  | [] => none

/-- Skip any run of whitespace (chrono lets whitespace in a format string
match any amount of input whitespace, including none). -/
def skipWs (cs : List Char) : List Char := cs.dropWhile isWs

/-- Require at least one whitespace character, then skip the whole run (the
separator discipline of chrono's RFC 2822 scanner). -/
def needWs : List Char → Option (List Char)
  | c :: rest => if isWs c then some (skipWs rest) else none
  | [] => none

/-- Gregorian leap-year test. -/
def isLeapYear (y : Int) : Bool :=
  (y.emod 4 == 0 && y.emod 100 != 0) || y.emod 400 == 0

/-- Days in a month (1-12) of a given year. -/
def daysInMonth (y : Int) (m : Nat) : Nat :=
  if m = 2 then (if isLeapYear y then 29 else 28)
  else if m = 4 || m = 6 || m = 9 || m = 11 then 30
  else 31

/-- Signed count of days from 1970-01-01 to the civil date y-m-d, by the
standard era-based days-from-civil computation used by calendar libraries
such as chrono. -/
def daysFromCivil (y : Int) (m d : Nat) : Int :=
  let yAdj : Int := if m ≤ 2 then y - 1 else y
  let era : Int := yAdj.fdiv 400
  let yoe : Int := yAdj - era * 400
  let mp : Int := ((m : Int) + 9).emod 12
  let doy : Int := (153 * mp + 2).fdiv 5 + (d : Int) - 1
  let doe : Int := yoe * 365 + yoe.fdiv 4 - yoe.fdiv 100 + doy
  era * 146097 + doe - 719468

/-- Validity check and UTC conversion for a parsed calendar date-time with a
fixed offset, modelling chrono's date-time construction followed by
`.with_timezone(&Utc)`: fields must form a real calendar date and a valid
time of day (leap-second minute 60 inputs are outside this model), and the
parsed offset is subtracted to reach UTC epoch seconds. -/
def civilToEpoch (y : Int) (mo d h mi s : Nat) (offset : Int) : Option Int :=
  if 1 ≤ mo ∧ mo ≤ 12 ∧ 1 ≤ d ∧ d ≤ daysInMonth y mo ∧ h ≤ 23 ∧ mi ≤ 59 ∧ s ≤ 59 then
    some (daysFromCivil y mo d * 86400 + (h : Int) * 3600 + (mi : Int) * 60 + (s : Int) - offset)
  else none

/-- Numeric UTC offset scan, as chrono's `%z` and its RFC 2822 offset scanner
accept it on the inputs reachable here: a mandatory sign, two hour digits, an
optional colon, two minute digits, within the fixed-offset range. Obsolete
named zones never reach the parser, because the timezone check already
requires the normalized input to end in four digits. -/
def parseOffsetNum (cs : List Char) : Option (Int × List Char) := do
  let (sign, r0) ←
    match cs with
    | '+' :: rest => some ((1 : Int), rest)
    | '-' :: rest => some ((-1 : Int), rest)
    | _ => none
  let (n1, h, r1) ← parseNum 2 r0
  guard (n1 = 2)
  let r2 :=
    match r1 with
    | ':' :: rest => rest
    | _ => r1
  let (n2, m, r3) ← parseNum 2 r2
  guard (n2 = 2)
  guard (m ≤ 59 ∧ h * 3600 + m * 60 < 86400)
  some (sign * ((h : Int) * 3600 + (m : Int) * 60), r3)

/-- Time-of-day scan for chrono's `%T` (= `%H:%M:%S`): hour, minute and
second of one or two digits each, separated by literal colons. -/
def parseHMS (cs : List Char) : Option (Nat × Nat × Nat × List Char) := do
  let (_, h, r1) ← parseNum 2 cs
  let r2 ← expectChar ':' r1
  let (_, mi, r3) ← parseNum 2 r2
  let r4 ← expectChar ':' r3
  let (_, s, r5) ← parseNum 2 r4
  some (h, mi, s, r5)

/-- Month number of a three-letter RFC 2822 month name, case-insensitive. -/
def monthFromName (a b c : Char) : Option Nat :=
  match a.toLower, b.toLower, c.toLower with
  | 'j', 'a', 'n' => some 1
  | 'f', 'e', 'b' => some 2
  | 'm', 'a', 'r' => some 3
  | 'a', 'p', 'r' => some 4
  | 'm', 'a', 'y' => some 5
  | 'j', 'u', 'n' => some 6
  | 'j', 'u', 'l' => some 7
  | 'a', 'u', 'g' => some 8
  | 's', 'e', 'p' => some 9
  | 'o', 'c', 't' => some 10
  | 'n', 'o', 'v' => some 11
  | 'd', 'e', 'c' => some 12
  | _, _, _ => none

/-- Three-letter RFC 2822 weekday name test, case-insensitive. -/
def isWeekdayName (a b c : Char) : Bool :=
  match a.toLower, b.toLower, c.toLower with
  | 's', 'u', 'n' => true
  | 'm', 'o', 'n' => true
  | 't', 'u', 'e' => true
  | 'w', 'e', 'd' => true
  | 't', 'h', 'u' => true
  | 'f', 'r', 'i' => true
  | 's', 'a', 't' => true
  | _, _, _ => false

/-- Strip an optional leading RFC 2822 day-of-week field: a three-letter
weekday name, a comma, then any whitespace. A leading weekday name with a
comma that is not a real weekday is an error; anything else is left for the
day-of-month scan. -/
def stripWeekday (cs : List Char) : Option (List Char) :=
  match cs with
  | a :: b :: c :: ',' :: rest =>
    if isWeekdayName a b c then some (skipWs rest) else none
  | _ => some cs

/-- Year adjustment of chrono's RFC 2822 scanner for obsolete short years:
two-digit years 0-49 mean 2000-2049, two-digit years 50-99 mean 1950-1999,
three-digit years add 1900, longer years stand as written. -/
def rfc2822Year (digits y : Nat) : Int :=
  if digits ≤ 2 then (if y ≤ 49 then (y : Int) + 2000 else (y : Int) + 1900)
  else if digits = 3 then (y : Int) + 1900
  else (y : Int)

/-- Model of `DateTime::parse_from_rfc2822` on the inputs reachable after the
timezone check (which forces a trailing numeric offset): an optional weekday
field, a one-or-two-digit day, a named month, a year of at least two digits,
a time of day with optional seconds, and a signed numeric offset, separated
by whitespace; folding comments and leap seconds are outside this model. The
result is the UTC epoch second count. -/
def parseRfc2822 (cs : List Char) : Option Int := do
  let r0 ← stripWeekday cs
  let (_, d, r1) ← parseNum 2 r0
  let r2 ← needWs r1
  let (mo, r3) ←
    match r2 with
    | a :: b :: c :: rest =>
      match monthFromName a b c with
      | some mo => some (mo, rest)
      | none => none
    | _ => none
  let r4 ← needWs r3
  let (ycnt, yraw, r5) ← parseNum 8 r4
  guard (2 ≤ ycnt)
  let r6 ← needWs r5
  let (_, h, r7) ← parseNum 2 r6
  let r8 ← expectChar ':' r7
  let (_, mi, r9) ← parseNum 2 r8
  let (s, r10) ←
    match r9 with
    | ':' :: rest =>
      match parseNum 2 rest with
      | some (_, s, r) => some (s, r)
      | none => none
    | _ => some ((0 : Nat), r9)
  let r11 ← needWs r10
  let (off, r12) ← parseOffsetNum r11
  guard (skipWs r12 = [])
  civilToEpoch (rfc2822Year ycnt yraw) mo d h mi s off

/-- Model of `DateTime::parse_from_str(s, "%d-%m-%Y %T %z")` followed by the
conversion to UTC: day, month, four-or-more-digit year, time, signed offset,
with the whole input consumed. -/
def parseDMY (cs : List Char) : Option Int := do
  let (_, d, r1) ← parseNum 2 cs
  let r2 ← expectChar '-' r1
  let (_, mo, r3) ← parseNum 2 r2
  let r4 ← expectChar '-' r3
  let (_, y, r5) ← parseNum 8 r4
  let (h, mi, s, r6) ← parseHMS (skipWs r5)
  let (off, r7) ← parseOffsetNum (skipWs r6)
  guard (r7 = [])
  civilToEpoch (y : Int) mo d h mi s off

/-- Model of `DateTime::parse_from_str(s, "%m/%d/%Y %T %z")` followed by the
conversion to UTC. -/
def parseMDY (cs : List Char) : Option Int := do
  let (_, mo, r1) ← parseNum 2 cs
  let r2 ← expectChar '/' r1
  let (_, d, r3) ← parseNum 2 r2
  let r4 ← expectChar '/' r3
  let (_, y, r5) ← parseNum 8 r4
  let (h, mi, s, r6) ← parseHMS (skipWs r5)
  let (off, r7) ← parseOffsetNum (skipWs r6)
  guard (r7 = [])
  civilToEpoch (y : Int) mo d h mi s off

/-- Model of `DateTime::parse_from_str(s, "%Y/%m/%d %T %z")` followed by the
conversion to UTC. -/
def parseYMD (cs : List Char) : Option Int := do
  let (_, y, r1) ← parseNum 8 cs
  let r2 ← expectChar '/' r1
  let (_, mo, r3) ← parseNum 2 r2
  let r4 ← expectChar '/' r3
  let (_, d, r5) ← parseNum 2 r4
  let (h, mi, s, r6) ← parseHMS (skipWs r5)
  let (off, r7) ← parseOffsetNum (skipWs r6)
  guard (r7 = [])
  civilToEpoch (y : Int) mo d h mi s off

/-- Failure outcomes of `parse_datetime`. The Rust code raises the same
`MissingZone` failure value on both paths but wraps it in two distinct
context messages, so the two errors are observably distinct; each constructor
carries the normalized input string that the corresponding message
interpolates. -/
inductive ParseErr where
  | missingTimezone (processed : List Char)
  | unrecognizedFormat (processed : List Char)
deriving Repr, DecidableEq

/-- Model of `parse_datetime` (src/main.rs lines 46-64): normalize the input,
reject it without a trailing four-digit sequence, then try the four formats
in order, first success winning; each format carries no sub-second part, so a
successful parse yields an `Instant` with zero nanoseconds. -/
def parse_datetime (src : String) : Except ParseErr Instant :=
  let processed := normalizeInput src.data
  if endsWithFourDigits processed = false then
    .error (.missingTimezone processed)
  else
    match parseRfc2822 processed with
    | some t => .ok ⟨t, 0⟩
    | none =>
      match parseDMY processed with
      | some t => .ok ⟨t, 0⟩
      | none =>
        match parseMDY processed with
        | some t => .ok ⟨t, 0⟩
        | none =>
          match parseYMD processed with
          | some t => .ok ⟨t, 0⟩
          | none => .error (.unrecognizedFormat processed)

instance : DecidableEq (Except ParseErr Instant) := fun a b =>
  match a, b with
  | .ok x, .ok y =>
    if h : x = y then isTrue (by rw [h]) else isFalse (by simp [h])
  | .error x, .error y =>
    if h : x = y then isTrue (by rw [h]) else isFalse (by simp [h])
  | .ok _, .error _ => isFalse (by simp)
  | .error _, .ok _ => isFalse (by simp)

/-- Wrapping cast helper: a value already in u32 range is cast to itself. -/
theorem u32cast_eq_toNat {v : Int} (h0 : 0 ≤ v) (h1 : v < 2 ^ 32) :
    u32cast v = v.toNat := by
  unfold u32cast
  rw [Int.emod_eq_of_lt h0 h1]

/-- Branch equation shared by several claims: any input at most `ts * 10`
takes the first branch of the disambiguator. -/
theorem disambiguate_secondsBand (input ts : Int) (h : input ≤ ts * 10) :
    disambiguate input ts =
      (⟨input, 0⟩, some "Assuming that timestamp is in seconds.") := by
  simp only [disambiguate]
  rw [if_pos h]

/-- C4: every raw input at most `now_seconds * 10` is classified as seconds:
the disambiguator returns the Instant (raw, 0) and emits the one-line notice
that the timestamp is assumed to be in seconds. -/
theorem disambiguate_seconds (raw now : Int) (h : raw ≤ now * 10) :
    disambiguate raw now =
      (⟨raw, 0⟩, some "Assuming that timestamp is in seconds.") :=
  disambiguate_secondsBand raw now h

/-- Witness for C4 at raw = 5, now = 1. -/
theorem disambiguate_seconds_witness :
    disambiguate 5 1 =
      (⟨5, 0⟩, some "Assuming that timestamp is in seconds.") :=
  disambiguate_seconds 5 1 (by norm_num)

/-- C5: in the milliseconds band `now*10 < raw ≤ now*10^4`, the disambiguator
returns seconds = raw / 1000 (truncating) and nanoseconds =
1000000 * (raw % 1000). -/
theorem disambiguate_milliseconds (raw now : Int)
    (h1 : now * 10 < raw) (h2 : raw ≤ now * 10 ^ 4) :
    (disambiguate raw now).1.secs = raw.tdiv 1000 ∧
    ((disambiguate raw now).1.nanos : Int) = 1000000 * raw.tmod 1000 := by
  have hraw : 0 ≤ raw := by nlinarith
  have hmod0 : 0 ≤ raw.tmod 1000 := Int.tmod_nonneg 1000 hraw
  have hmodlt : raw.tmod 1000 < 1000 := Int.tmod_lt_of_pos raw (by norm_num)
  have hc2 : raw ≤ now * 10 ^ 3 * 10 := by nlinarith
  have hv0 : (0 : Int) ≤ 1000000 * raw.tmod 1000 := by nlinarith
  have hv1 : 1000000 * raw.tmod 1000 < 2 ^ 32 := by nlinarith
  simp only [disambiguate]
  rw [if_neg (not_le.mpr h1), if_pos ⟨h1, hc2⟩]
  constructor
  · norm_num
  · show ((u32cast ((10 : Int) ^ 6 * raw.tmod (10 ^ 3)) : Nat) : Int) = 1000000 * raw.tmod 1000
    norm_num
    rw [u32cast_eq_toNat hv0 hv1, Int.toNat_of_nonneg hv0]

/-- Cast helper: a value in [0, 999999999] stays within that range after the
u32 cast. -/
theorem u32cast_le {v : Int} (h0 : 0 ≤ v) (h1 : v ≤ 999999999) :
    u32cast v ≤ 999999999 := by
  rw [u32cast_eq_toNat h0 (lt_of_le_of_lt h1 (by norm_num))]
  exact Int.toNat_le.mpr (by exact_mod_cast h1)

/-- C1 fails as stated: with now_seconds = -1 the raw input -10 lies strictly
above now_seconds * 10^7, yet the seconds branch fires first (the magnitude
bands overlap for negative now_seconds) and the result (-10, 0) depends on
raw and differs from (now_seconds / 10^9, now_seconds % 10^9). -/
theorem disambiguate_nano_counterexample :
    (-1 : Int) * 10 ^ 7 < -10 ∧
    ¬ ((disambiguate (-10) (-1)).1.secs = Int.tdiv (-1) (10 ^ 9) ∧
       ((disambiguate (-10) (-1)).1.nanos : Int) = Int.tmod (-1) (10 ^ 9)) := by
  decide

/-- C1 amended: for nonnegative now_seconds, every raw strictly above
now_seconds * 10^7 takes the nanoseconds branch, whose output Instant
(now_seconds / 10^9, now_seconds % 10^9) is computed from now_seconds alone,
independent of raw. -/
theorem disambiguate_nanoseconds (raw now : Int) (h0 : 0 ≤ now)
    (h : now * 10 ^ 7 < raw) :
    (disambiguate raw now).1 =
      ⟨now.tdiv (10 ^ 9), (now.tmod (10 ^ 9)).toNat⟩ ∧
    (disambiguate raw now).2 = some "Assuming that timestamp is in nanoseconds." := by
  have e1 : ¬ (raw ≤ now * 10) := by nlinarith
  have e2 : ¬ (raw > now * 10 ∧ raw ≤ now * 10 ^ 3 * 10) := by
    rintro ⟨-, hb⟩
    nlinarith
  have e3 : ¬ (raw > now * 10 ^ 3 * 10 ∧ raw ≤ now * 10 ^ 6 * 10) := by
    rintro ⟨-, hb⟩
    nlinarith
  have e4 : raw > now * 10 ^ 6 * 10 := by nlinarith
  have hm0 : 0 ≤ now.tmod (10 ^ 9) := Int.tmod_nonneg _ h0
  have hm1 : now.tmod (10 ^ 9) < 2 ^ 32 :=
    lt_of_lt_of_le (Int.tmod_lt_of_pos now (by norm_num)) (by norm_num)
  simp only [disambiguate]
  rw [if_neg e1, if_neg e2, if_neg e3, if_pos e4]
  refine ⟨?_, rfl⟩
  show (⟨now.tdiv (10 ^ 9), u32cast (now.tmod (10 ^ 9))⟩ : Instant) = _
  rw [u32cast_eq_toNat hm0 hm1]

/-- Witness for the amended C1 at raw = 10^8, now = 1. -/
theorem disambiguate_nanoseconds_witness :
    (disambiguate (10 ^ 8) 1).1 =
      ⟨Int.tdiv 1 (10 ^ 9), (Int.tmod 1 (10 ^ 9)).toNat⟩ ∧
    (disambiguate (10 ^ 8) 1).2 = some "Assuming that timestamp is in nanoseconds." :=
  disambiguate_nanoseconds (10 ^ 8) 1 (by norm_num) (by norm_num)

/-- Witness for C5 at raw = 50123, now = 10. -/
theorem disambiguate_milliseconds_witness :
    (disambiguate 50123 10).1.secs = Int.tdiv 50123 1000 ∧
    ((disambiguate 50123 10).1.nanos : Int) = 1000000 * Int.tmod 50123 1000 :=
  disambiguate_milliseconds 50123 10 (by norm_num) (by norm_num)

/-- C6: for every raw input and nonnegative now_seconds, the nanosecond field
of the disambiguated Instant lies in [0, 999999999]: the values computed in
the milliseconds and microseconds branches are nonnegative and below 10^9,
so the u32 cast never wraps. -/
theorem disambiguate_nanos_bounded (raw now : Int) (h : 0 ≤ now) :
    (disambiguate raw now).1.nanos ≤ 999999999 := by
  simp only [disambiguate]
  split
  next => exact Nat.zero_le _
  next hc1 =>
    split
    next hc2 =>
      have hraw : 0 ≤ raw :=
        le_of_lt (lt_of_le_of_lt (mul_nonneg h (by norm_num)) hc2.1)
      have hmod0 : 0 ≤ raw.tmod (10 ^ 3) := Int.tmod_nonneg _ hraw
      have hmodlt : raw.tmod (10 ^ 3) < 10 ^ 3 := Int.tmod_lt_of_pos raw (by norm_num)
      exact u32cast_le (by nlinarith) (by nlinarith)
    next hc2 =>
      split
      next hc3 =>
        have hraw : 0 ≤ raw :=
          le_of_lt (lt_of_le_of_lt (by positivity) hc3.1)
        have hmod0 : 0 ≤ raw.tmod (10 ^ 6) := Int.tmod_nonneg _ hraw
        have hmodlt : raw.tmod (10 ^ 6) < 10 ^ 6 := Int.tmod_lt_of_pos raw (by norm_num)
        exact u32cast_le (by nlinarith) (by nlinarith)
      next hc3 =>
        split
        next hc4 =>
          have hmod0 : 0 ≤ now.tmod (10 ^ 9) := Int.tmod_nonneg _ h
          have hmodlt : now.tmod (10 ^ 9) < 10 ^ 9 := Int.tmod_lt_of_pos now (by norm_num)
          exact u32cast_le hmod0 (by nlinarith)
        next hc4 => exact Nat.zero_le _

/-- Witness for C6 at raw = 0, now = 0. -/
theorem disambiguate_nanos_bounded_witness :
    (disambiguate 0 0).1.nanos ≤ 999999999 :=
  disambiguate_nanos_bounded 0 0 (le_refl 0)

/-- C9: for every Instant, the milliseconds value on line 2 of the rendered
output equals the epoch-seconds value on line 1 times 1000 plus the Instant's
nanoseconds divided by 1000000 (integer division). -/
theorem display_lines_relation (i : Instant) :
    (display_results i).epochMillis =
      (display_results i).epochSeconds * 1000 + ((i.nanos / 1000000 : Nat) : Int) :=
  rfl

/-- C10 fails as stated: the Instant (0, 1) places its line-1 epoch seconds
in the seconds band for now_seconds = 0, but feeding that value back through
the disambiguator yields (0, 0), not the original Instant: the nanosecond
component is lost. -/
theorem render_roundtrip_counterexample :
    (display_results ⟨0, 1⟩).epochSeconds ≤ 0 * 10 ∧
    (disambiguate (display_results ⟨0, 1⟩).epochSeconds 0).1 ≠ (⟨0, 1⟩ : Instant) := by
  decide

/-- C10 amended: feeding the line-1 epoch seconds back through the
disambiguator as a seconds-band input reproduces the Instant's seconds with a
zero nanosecond field; this equals the original Instant exactly when its
nanosecond component is zero. -/
theorem render_roundtrip_seconds (i : Instant) (now : Int)
    (h : (display_results i).epochSeconds ≤ now * 10) :
    (disambiguate (display_results i).epochSeconds now).1 = ⟨i.secs, 0⟩ ∧
    ((disambiguate (display_results i).epochSeconds now).1 = i ↔ i.nanos = 0) := by
  have hstep : (disambiguate (display_results i).epochSeconds now).1 = ⟨i.secs, 0⟩ := by
    rw [disambiguate_secondsBand _ now h]
    rfl
  refine ⟨hstep, ?_⟩
  rw [hstep]
  cases i with
  | mk s n =>
    simp [Instant.mk.injEq, eq_comm]

/-- Witness for the amended C10 at the Instant (3, 0) with now_seconds = 1. -/
theorem render_roundtrip_seconds_witness :
    (disambiguate (display_results ⟨3, 0⟩).epochSeconds 1).1 =
      ⟨(⟨3, 0⟩ : Instant).secs, 0⟩ ∧
    ((disambiguate (display_results ⟨3, 0⟩).epochSeconds 1).1 = (⟨3, 0⟩ : Instant) ↔
      (⟨3, 0⟩ : Instant).nanos = 0) :=
  render_roundtrip_seconds ⟨3, 0⟩ 1 (by decide)

/-- C2: parse_datetime fails with MissingTimezone, carrying the normalized
string, exactly when the normalized input (trimmed, with GMT replaced by
+0000) does not end in four consecutive digits; any input whose normalized
form ends in four digits, whatever character precedes them, passes the
check. -/
theorem parse_missingTimezone_iff (src : String) :
    parse_datetime src = .error (.missingTimezone (normalizeInput src.data)) ↔
      endsWithFourDigits (normalizeInput src.data) = false := by
  unfold parse_datetime
  rcases h : endsWithFourDigits (normalizeInput src.data) with _ | _
  · simp [h]
  · simp only [h]
    rw [if_neg (by simp)]
    constructor
    · intro hc
      rcases h1 : parseRfc2822 (normalizeInput src.data) with _ | t <;> simp only [h1] at hc
      · rcases h2 : parseDMY (normalizeInput src.data) with _ | t <;> simp only [h2] at hc
        · rcases h3 : parseMDY (normalizeInput src.data) with _ | t <;> simp only [h3] at hc
          · rcases h4 : parseYMD (normalizeInput src.data) with _ | t <;> simp only [h4] at hc
            · exact absurd hc (by simp)
            · exact absurd hc (by simp)
          · exact absurd hc (by simp)
        · exact absurd hc (by simp)
      · exact absurd hc (by simp)
    · intro hfalse
      exact absurd hfalse (by simp)

/-- C3: whenever the timezone-suffix check passes on the normalized input but
all four accepted format parsers fail, parse_datetime fails with the distinct
error UnrecognizedFormat (not MissingTimezone), carrying the normalized
string. -/
theorem parse_unrecognizedFormat (src : String)
    (hz : endsWithFourDigits (normalizeInput src.data) = true)
    (h1 : parseRfc2822 (normalizeInput src.data) = none)
    (h2 : parseDMY (normalizeInput src.data) = none)
    (h3 : parseMDY (normalizeInput src.data) = none)
    (h4 : parseYMD (normalizeInput src.data) = none) :
    parse_datetime src = .error (.unrecognizedFormat (normalizeInput src.data)) := by
  unfold parse_datetime
  rw [if_neg (by simp [hz])]
  simp only [h1, h2, h3, h4]

/-- Witness for C3 at the spec's example input "garbage +0000". -/
theorem parse_unrecognizedFormat_witness :
    parse_datetime "garbage +0000" =
      .error (.unrecognizedFormat (normalizeInput "garbage +0000".data)) :=
  parse_unrecognizedFormat "garbage +0000" (by decide) (by decide) (by decide)
    (by decide) (by decide)

/-- C7: the D-M-Y, M/D/Y and Y/M/D forms and the GMT-suffixed RFC 2822 form
all parse successfully to the same Instant as the base RFC 2822 string
"31 Jan 1970 00:00:00 +0000". -/
theorem parse_formats_agree :
    parse_datetime "31 Jan 1970 00:00:00 +0000" = .ok ⟨2592000, 0⟩ ∧
    parse_datetime "31-01-1970 00:00:00 +0000" =
      parse_datetime "31 Jan 1970 00:00:00 +0000" ∧
    parse_datetime "01/31/1970 00:00:00 +0000" =
      parse_datetime "31 Jan 1970 00:00:00 +0000" ∧
    parse_datetime "1970/01/31 00:00:00 +0000" =
      parse_datetime "31 Jan 1970 00:00:00 +0000" ∧
    parse_datetime "31 Jan 1970 00:00:00 GMT" =
      parse_datetime "31 Jan 1970 00:00:00 +0000" := by
  refine ⟨rfl, rfl, rfl, rfl, rfl⟩

/-- C8 fails as stated: 31 Jan 1970 00:00:00 UTC is epoch second 2592000 (30
complete days of January 1970 precede it), while 2678400 is 1 Feb 1970; the
parse succeeds but with epoch seconds 2592000. -/
theorem parse_rfc2822_base_counterexample :
    parse_datetime "31 Jan 1970 00:00:00 +0000" ≠ .ok ⟨2678400, 0⟩ := by
  decide

/-- C8 amended: parse of "31 Jan 1970 00:00:00 +0000" succeeds and returns
the Instant with epoch seconds 2592000 and zero nanoseconds. -/
theorem parse_rfc2822_base :
    parse_datetime "31 Jan 1970 00:00:00 +0000" = .ok ⟨2592000, 0⟩ := rfl
